import Mathlib

/-!
Shallow embedding of the uc-intg-musiccast device bridge
(Yamaha MusicCast integration: client.py, media_player.py, remote.py).

Modelling conventions:
* Python `int(x)` applied to an exact quotient truncates toward zero, which is
  `Int.tdiv` on exact integer arithmetic.  Python evaluates the volume
  conversions with binary floating point; that arithmetic is modelled here as
  exact rational arithmetic, so `int((a / b) * c)` becomes `(a * c).tdiv b`.
* An HTTP exchange is abstracted as a function from the request that the client
  builds (endpoint plus query parameters, already stringified and with `None`
  values dropped) to an outcome: an HTTP response carrying a decoded JSON body,
  an `aiohttp.ClientError`, or an `asyncio.TimeoutError`.
* A raised exception is modelled as the `Except.error` branch; client methods
  additionally return the list of network requests they issued, so that
  fail-fast properties (zero network calls) are expressible.
* JSON bodies are modelled as a `response_code` field (possibly absent) plus an
  abstract association-list payload.
-/

/-- Embeds `media_player._convert_volume_to_percentage`:
`if max_volume <= 0: return 0` then `min(100, max(0, int((volume / max_volume) * 100)))`. -/
def convert_volume_to_percentage (volume max_volume : ℤ) : ℤ :=
  if max_volume ≤ 0 then 0
  else min 100 (max 0 ((volume * 100).tdiv max_volume))

/-- Embeds `media_player._convert_percentage_to_volume`:
`min(max_volume, max(0, int((percentage / 100) * max_volume)))`. -/
def convert_percentage_to_volume (percentage max_volume : ℤ) : ℤ :=
  min max_volume (max 0 ((percentage * max_volume).tdiv 100))

/-- Equality of modelled call results is decidable, so that concrete runs can
be checked by evaluation. -/
instance {ε α : Type} [DecidableEq ε] [DecidableEq α] : DecidableEq (Except ε α) :=
  fun x y =>
  match x, y with
  | .ok a, .ok b =>
      if h : a = b then .isTrue (by rw [h]) else .isFalse (by intro hc; cases hc; exact h rfl)
  | .ok _, .error _ => .isFalse (by intro hc; cases hc)
  | .error _, .ok _ => .isFalse (by intro hc; cases hc)
  | .error a, .error b =>
      if h : a = b then .isTrue (by rw [h]) else .isFalse (by intro hc; cases hc; exact h rfl)

/-- Embeds the exception hierarchy of `client.py`: `DeviceNotReachableError`,
`InvalidParameterError`, and the bare base `YamahaMusicCastError`. -/
inductive MCError where
  | deviceNotReachable (msg : String)
  | invalidParameter (msg : String)
  | apiError (msg : String)
deriving DecidableEq

/-- Decoded JSON body of a device response: the embedded `response_code`
field (absent in a malformed body) plus the remaining payload, abstracted
as an association list. -/
structure ApiResponse where
  response_code : Option ℤ
  payload : List (String × String)
deriving DecidableEq

/-- Outcome of one HTTP exchange, as observed inside `_make_request`. -/
inductive HttpOutcome where
  | response (status : ℕ) (reason : String) (body : ApiResponse)
  | clientError (msg : String)
  | timeoutError
deriving DecidableEq

/-- A network request built by the client: endpoint path plus query
parameters (already stringified, `None`-valued entries dropped). -/
structure Request where
  endpoint : String
  params : List (String × String)
deriving DecidableEq

/-- A stubbed transport: what the network returns for each request. -/
abbrev Transport := Request → HttpOutcome

/-- Entity command status codes used by the handlers (`ucapi.StatusCodes`). -/
inductive StatusCode where
  | ok
  | badRequest
  | notImplemented
  | serverError
deriving DecidableEq

/-- Embeds `client._make_request`: an HTTP status other than 200 raises
`DeviceNotReachableError`; otherwise the decoded JSON is inspected:
`response_code = data.get("response_code", -1)`, a nonzero code raises
`InvalidParameterError` for codes 3 and 4 and the bare `YamahaMusicCastError`
otherwise, and a zero code returns the decoded body unchanged.  An
`aiohttp.ClientError` or `asyncio.TimeoutError` raises
`DeviceNotReachableError`. -/
def make_request (outcome : HttpOutcome) : Except MCError ApiResponse :=
  match outcome with
  | .response status reason body =>
      if status ≠ 200 then
        .error (.deviceNotReachable ("HTTP " ++ toString status ++ ": " ++ reason))
      else
        let rc := body.response_code.getD (-1)
        if rc ≠ 0 then
          if rc = 3 then
            .error (.invalidParameter
              ("API error code " ++ toString rc ++ ": Invalid zone or parameter"))
          else if rc = 4 then
            .error (.invalidParameter
              ("API error code " ++ toString rc ++ ": Invalid parameter value"))
          else
            .error (.apiError ("API error code " ++ toString rc))
        else .ok body
  | .clientError e => .error (.deviceNotReachable ("Network error: " ++ e))
  | .timeoutError => .error (.deviceNotReachable "Request timeout")

/-- The `response_code` the transport layer reads from a decoded body:
`data.get("response_code", -1)`. -/
def response_code_of (b : ApiResponse) : ℤ :=
  b.response_code.getD (-1)

/-- A decoded body whose embedded response code is 0 (vendor success). -/
def okResponse : ApiResponse :=
  { response_code := some 0, payload := [] }

/-- A stub transport answering every request with HTTP 200 and response code 0. -/
def okTransport : Transport :=
  fun _ => .response 200 "OK" okResponse

/-- A decoded body carrying the vendor error code 4 (invalid parameter value). -/
def rc4Response : ApiResponse :=
  { response_code := some 4, payload := [] }

/-- A decoded body carrying the unclassified vendor error code 5. -/
def rc5Response : ApiResponse :=
  { response_code := some 5, payload := [] }

/-- The request `client.recall_preset` sends: endpoint `netusb/recallPreset`
with `zone` and `num` parameters. -/
def presetRequest (zone : String) (num : ℤ) : Request :=
  { endpoint := "netusb/recallPreset", params := [("zone", zone), ("num", toString num)] }

/-- Embeds `client.recall_preset`: `num` outside 1..40 raises
`InvalidParameterError` before any request; otherwise one request is sent and
`True` is returned when it succeeds. -/
def recall_preset (tr : Transport) (zone : String) (num : ℤ) :
    Except MCError Bool × List Request :=
  if 1 ≤ num ∧ num ≤ 40 then
    match make_request (tr (presetRequest zone num)) with
    | .ok _ => (.ok true, [presetRequest zone num])
    | .error e => (.error e, [presetRequest zone num])
  else
    (.error (.invalidParameter
      ("Preset number must be between 1 and 40, got " ++ toString num)), [])

/-- Request sent for a scene recall (see `set_scene`). -/
def sceneRequest (zone : String) (num : ℤ) : Request :=
  { endpoint := zone ++ "/recallScene", params := [("num", toString num)] }

/-- Modelled from the spec: the remote command handler calls a client method
`set_scene` that is not present in the client source file under `src/`.  Per
the spec a scene is a vendor-defined saved configuration slot recalled by
integer id, transmitted as a single request carrying the scene number. -/
def set_scene (tr : Transport) (zone : String) (num : ℤ) :
    Except MCError Bool × List Request :=
  match make_request (tr (sceneRequest zone num)) with
  | .ok _ => (.ok true, [sceneRequest zone num])
  | .error e => (.error e, [sceneRequest zone num])

/-- Embeds the `scene_` branch of `remote._handle_command` (with the scene
number already parsed from the `scene_N` command string): a number inside
1..8 triggers `set_scene` and the handler returns OK on success, while the
surrounding `except` turns a raised error into SERVER_ERROR; a number outside
1..8 returns BAD_REQUEST with no request issued. -/
def remote_scene_command (tr : Transport) (zone : String) (scene_num : ℤ) :
    StatusCode × List Request :=
  if 1 ≤ scene_num ∧ scene_num ≤ 8 then
    match set_scene tr zone scene_num with
    | (.ok _, reqs) => (.ok, reqs)
    | (.error _, reqs) => (.serverError, reqs)
  else (.badRequest, [])

/-- The request `client.set_input` sends. -/
def inputRequest (zone : String) (input_source : String) : Request :=
  { endpoint := zone ++ "/setInput", params := [("input", input_source)] }

/-- Embeds `client.set_input`: one request to `zone/setInput`. -/
def set_input (tr : Transport) (zone : String) (input_source : String) :
    Except MCError Bool × List Request :=
  match make_request (tr (inputRequest zone input_source)) with
  | .ok _ => (.ok true, [inputRequest zone input_source])
  | .error e => (.error e, [inputRequest zone input_source])

/-- One entry of the available-sources list built by
`client.get_available_inputs` (the dictionaries with keys `id`, `name`,
`distribution_enable`, `play_info_type`). -/
structure SourceEntry where
  id : String
  name : String
  distribution_enable : Bool
  play_info_type : String
deriving DecidableEq

/-- Embeds the SELECT_SOURCE branch of `media_player._handle_command`:
`source_id = next((src["id"] for src in self._available_sources if
src["name"] == source_name), None)`; `if source_id:` calls `set_input` and the
handler returns OK (SERVER_ERROR when the call raises), `else` it returns
BAD_REQUEST.  Python truthiness makes both a missing name and an empty-string
id take the BAD_REQUEST branch. -/
def select_source (tr : Transport) (zone : String) (sources : List SourceEntry)
    (source_name : String) : StatusCode × List Request :=
  match (sources.find? (fun s => s.name = source_name)).map (fun s => s.id) with
  | some sid =>
      if sid ≠ "" then
        match set_input tr zone sid with
        | (.ok _, reqs) => (.ok, reqs)
        | (.error _, reqs) => (.serverError, reqs)
      else (.badRequest, [])
  | none => (.badRequest, [])

/-- A source entry whose vendor id is the empty string. -/
def emptyIdSource : SourceEntry :=
  { id := "", name := "TV", distribution_enable := false, play_info_type := "none" }

/-- The Spotify entry of the hardcoded fallback source list. -/
def spotifySource : SourceEntry :=
  { id := "spotify", name := "Spotify", distribution_enable := true, play_info_type := "netusb" }

/-- Embeds the static `input_name_mapping` table of
`client.get_available_inputs`. -/
def input_name_mapping : List (String × String) :=
  [("hdmi1", "HDMI 1"), ("hdmi2", "HDMI 2"), ("hdmi3", "HDMI 3"),
   ("hdmi4", "HDMI 4"), ("hdmi5", "HDMI 5"), ("hdmi6", "HDMI 6"), ("hdmi7", "HDMI 7"),
   ("av1", "AV 1"), ("av2", "AV 2"), ("av3", "AV 3"),
   ("audio1", "Audio 1"), ("audio2", "Audio 2"), ("audio3", "Audio 3"), ("audio4", "Audio 4"),
   ("bluetooth", "Bluetooth"), ("spotify", "Spotify"), ("airplay", "AirPlay"),
   ("usb", "USB"), ("tuner", "Tuner"), ("net_radio", "Net Radio"), ("phono", "Phono"),
   ("napster", "Napster"), ("qobuz", "Qobuz"), ("tidal", "Tidal"), ("deezer", "Deezer"),
   ("amazon_music", "Amazon Music"), ("alexa", "Alexa"), ("server", "Server"),
   ("mc_link", "MusicCast Link"), ("main_sync", "Main Sync"), ("tv", "TV"),
   ("optical1", "Optical 1"), ("optical2", "Optical 2"), ("coaxial1", "Coaxial 1"),
   ("coaxial2", "Coaxial 2"), ("line1", "Line 1"), ("line2", "Line 2"), ("line3", "Line 3"),
   ("line_cd", "Line CD"), ("juke", "Juke")]

/-- Embeds Python `input_id.replace("_", " ")`: the pattern is a single
character, so the replacement acts character by character. -/
def underscores_to_spaces (s : String) : String :=
  String.mk (s.data.map (fun c => if c = '_' then ' ' else c))

/-- Recursion underlying `py_title`: Python `str.title()` uppercases a cased
character that follows a non-cased one and lowercases a cased character that
follows a cased one; the flag records whether the previous character was
cased.  The input ids are ASCII, for which cased means alphabetic. -/
def py_title_aux : Bool → List Char → List Char
  | _, [] => []
  | prevAlpha, c :: cs =>
      if c.isAlpha then
        (if prevAlpha then c.toLower else c.toUpper) :: py_title_aux true cs
      else c :: py_title_aux false cs

/-- Embeds Python `str.title()` (restricted to ASCII input ids). -/
def py_title (s : String) : String :=
  String.mk (py_title_aux false s.data)

/-- Embeds the name resolution of `client.get_available_inputs`:
`input_name_mapping.get(input_id, input_id.replace("_", " ").title())`. -/
def friendly_input_name (input_id : String) : String :=
  ((input_name_mapping.find? (fun p => p.1 = input_id)).map Prod.snd).getD
    (py_title (underscores_to_spaces input_id))

/-- One entry of the feature metadata `system.input_list`. -/
structure SystemInput where
  id : String
  distribution_enable : Bool
  play_info_type : String
deriving DecidableEq

/-- One entry of a zone feature `range_step` list; `max` is `None` when the
JSON field is absent (`range_step.get("max", 161)`). -/
structure RangeStep where
  id : String
  max : Option ℤ
deriving DecidableEq

/-- One entry of the feature metadata `zone` list. -/
structure ZoneInfo where
  id : String
  input_list : List String
  range_step : List RangeStep
  sound_program_list : List String
deriving DecidableEq

/-- Decoded `system/getFeatures` metadata, restricted to the fields the
client reads. -/
structure Features where
  system_input_list : List SystemInput
  zone : List ZoneInfo
deriving DecidableEq

/-- Embeds the dictionary comprehension `{inp["id"]: inp for inp in ...}`
followed by `.get(key, {})`: for a duplicated id the last entry wins. -/
def dict_find (l : List SystemInput) (key : String) : Option SystemInput :=
  l.reverse.find? (fun inp => inp.id = key)

/-- The hardcoded fallback input list of `client.get_available_inputs`. -/
def fallback_inputs : List SourceEntry :=
  [{ id := "spotify", name := "Spotify", distribution_enable := true, play_info_type := "netusb" },
   { id := "bluetooth", name := "Bluetooth", distribution_enable := true, play_info_type := "netusb" },
   { id := "hdmi1", name := "HDMI 1", distribution_enable := true, play_info_type := "none" },
   { id := "audio1", name := "Audio 1", distribution_enable := true, play_info_type := "none" }]

/-- Embeds `client.get_available_inputs`.  The argument is the result of the
`get_features` fetch (cached or fresh); the surrounding `try/except` catches a
raised error and returns the hardcoded fallback list, so the function itself
never propagates an error.  On success the zone input ids (first zone whose id
matches, empty when none does) are decorated with metadata from the system
input table and the friendly-name resolution. -/
def get_available_inputs (features_result : Except MCError Features) (zone : String) :
    Except MCError (List SourceEntry) :=
  match features_result with
  | .error _ => .ok fallback_inputs
  | .ok features =>
      let zone_inputs := ((features.zone.find? (fun z => z.id = zone)).map
        ZoneInfo.input_list).getD []
      .ok (zone_inputs.map (fun input_id =>
        let input_info := dict_find features.system_input_list input_id
        { id := input_id,
          name := friendly_input_name input_id,
          distribution_enable := (input_info.map SystemInput.distribution_enable).getD false,
          play_info_type := (input_info.map SystemInput.play_info_type).getD "none" }))

/-- A minimal feature set (no zones, no system inputs). -/
def defaultFeatures : Features :=
  { system_input_list := [], zone := [] }

/-- Embeds the `command_mapping` dictionary of `client.set_playback`. -/
def command_mapping : List (String × String) :=
  [("play_pause", "toggle"), ("play", "play"), ("pause", "pause"),
   ("stop", "stop"), ("next", "next"), ("previous", "previous")]

/-- Embeds `command_mapping.get(playback, playback)`. -/
def mapped_playback (playback : String) : String :=
  ((command_mapping.find? (fun p => p.1 = playback)).map Prod.snd).getD playback

/-- Embeds `command_mapping.values()`. -/
def vendor_playback_literals : List String :=
  command_mapping.map Prod.snd

/-- The request `client.set_playback` sends. -/
def playbackRequest (cmd : String) : Request :=
  { endpoint := "netusb/setPlayback", params := [("playback", cmd)] }

/-- Embeds `client.set_playback`: the argument is passed through the mapping,
a mapped form outside `command_mapping.values()` raises
`InvalidParameterError` before any request, and otherwise one request carrying
the mapped literal is sent. -/
def set_playback (tr : Transport) (playback : String) :
    Except MCError Bool × List Request :=
  let actual := mapped_playback playback
  if actual ∈ vendor_playback_literals then
    match make_request (tr (playbackRequest actual)) with
    | .ok _ => (.ok true, [playbackRequest actual])
    | .error e => (.error e, [playbackRequest actual])
  else
    (.error (.invalidParameter ("Invalid playback command: " ++ playback)), [])

/-- Embeds the `max_vol` lookup of `client.set_volume`: default 161, replaced
by the `max` field of the first `range_step` entry with id `volume` of the
first zone entry whose id matches. -/
def max_volume_for (features : Features) (zone : String) : ℤ :=
  match features.zone.find? (fun z => z.id = zone) with
  | none => 161
  | some zone_info =>
      match zone_info.range_step.find? (fun rs => rs.id = "volume") with
      | none => 161
      | some rs => rs.max.getD 161

/-- The request `client.set_volume` sends to `zone/setVolume`. -/
def setVolumeRequest (zone : String) (ps : List (String × String)) : Request :=
  { endpoint := zone ++ "/setVolume", params := ps }

/-- Embeds `client.set_volume`.  The first argument is the result of the
`get_features` call performed when an absolute volume is given (its own HTTP
request is served from the capability cache and is not tracked here).  An
absolute volume is clamped with `max(0, min(max_vol, volume))`; otherwise a
direction of `up` or `down` sends `volume=direction&step=(step or 4)`;
otherwise a bare step sends `step=step`; with none of the three the method
raises `InvalidParameterError` before any request. -/
def set_volume (features_result : Except MCError Features) (tr : Transport)
    (zone : String) (volume : Option ℤ) (step : Option ℤ) (direction : Option String) :
    Except MCError Bool × List Request :=
  match volume with
  | some v =>
      match features_result with
      | .error e => (.error e, [])
      | .ok features =>
          let max_vol := max_volume_for features zone
          let r := setVolumeRequest zone [("volume", toString (max 0 (min max_vol v)))]
          match make_request (tr r) with
          | .ok _ => (.ok true, [r])
          | .error e => (.error e, [r])
  | none =>
      if direction = some "up" ∨ direction = some "down" then
        let r := setVolumeRequest zone
          [("volume", direction.getD ""), ("step", toString (step.getD 4))]
        match make_request (tr r) with
        | .ok _ => (.ok true, [r])
        | .error e => (.error e, [r])
      else
        match step with
        | some st =>
            let r := setVolumeRequest zone [("step", toString st)]
            match make_request (tr r) with
            | .ok _ => (.ok true, [r])
            | .error e => (.error e, [r])
        | none =>
            (.error (.invalidParameter "Either volume, step, or direction must be provided"), [])

/-- C2 (counterexample): at max_volume = -5 the conversion returns -5, which
does not lie in [0, max_volume], so the clamping claim fails for a negative
max_volume. -/
theorem clamping_counterexample :
    convert_percentage_to_volume 50 (-5) = -5 ∧
    ¬ (0 ≤ convert_percentage_to_volume 50 (-5) ∧
        convert_percentage_to_volume 50 (-5) ≤ -5) := by
  decide

/-- C2 (amended): for every integer percentage (including out-of-range ones)
and every nonnegative max_volume the conversion lands in [0, max_volume]; and
set_volume with an absolute volume transmits exactly the clamped value
max(0, min(max_vol, volume)), which is nonnegative and is bounded by max_vol
whenever max_vol is nonnegative. -/
theorem volume_clamping (pct m v : ℤ) (hm : 0 ≤ m)
    (features : Features) (tr : Transport) (zone : String)
    (step : Option ℤ) (direction : Option String) :
    (0 ≤ convert_percentage_to_volume pct m ∧ convert_percentage_to_volume pct m ≤ m) ∧
    ((set_volume (.ok features) tr zone (some v) step direction).2 =
        [setVolumeRequest zone
          [("volume", toString (max 0 (min (max_volume_for features zone) v)))]] ∧
      0 ≤ max 0 (min (max_volume_for features zone) v) ∧
      (0 ≤ max_volume_for features zone →
        max 0 (min (max_volume_for features zone) v) ≤ max_volume_for features zone)) := by
  refine ⟨⟨?_, ?_⟩, ?_, le_max_left _ _, fun h => max_le h (min_le_left _ _)⟩
  · unfold convert_percentage_to_volume
    exact le_min hm (le_max_left _ _)
  · unfold convert_percentage_to_volume
    exact min_le_left _ _
  · cases hmr : make_request (tr (setVolumeRequest zone
        [("volume", toString (max 0 (min (max_volume_for features zone) v)))])) with
    | error e => simp [set_volume, hmr]
    | ok b => simp [set_volume, hmr]

/-- C2 (witness): the amended clamping facts at pct = 150, max_volume = 161,
and a set_volume call with absolute volume 500 against the default feature
set. -/
theorem volume_clamping_witness :
    (0 ≤ convert_percentage_to_volume 150 161 ∧ convert_percentage_to_volume 150 161 ≤ 161) ∧
    (set_volume (.ok defaultFeatures) okTransport "main" (some 500) none none).2 =
      [setVolumeRequest "main"
        [("volume", toString (max 0 (min (max_volume_for defaultFeatures "main") 500)))]] ∧
    max 0 (min (max_volume_for defaultFeatures "main") 500) ≤
      max_volume_for defaultFeatures "main" := by
  obtain ⟨hconv, hreq, _, hle⟩ :=
    volume_clamping 150 161 500 (by decide) defaultFeatures okTransport "main" none none
  exact ⟨hconv, hreq, hle (by decide)⟩

/-- C10: for every volume and max_volume the reported percentage lies in
[0, 100], and a non-positive max_volume yields 0 outright instead of a
division. -/
theorem percentage_always_valid (volume max_volume : ℤ) :
    0 ≤ convert_volume_to_percentage volume max_volume ∧
    convert_volume_to_percentage volume max_volume ≤ 100 ∧
    (max_volume ≤ 0 → convert_volume_to_percentage volume max_volume = 0) := by
  unfold convert_volume_to_percentage
  by_cases h : max_volume ≤ 0
  · simp [h]
  · rw [if_neg h]
    exact ⟨le_min (by norm_num) (le_max_left _ _), min_le_left _ _, fun hc => absurd hc h⟩

/-- C10 (witness): the percentage bounds at volume = 999, max_volume = -3,
where the guard branch returns 0. -/
theorem percentage_always_valid_witness :
    0 ≤ convert_volume_to_percentage 999 (-3) ∧
    convert_volume_to_percentage 999 (-3) ≤ 100 ∧
    convert_volume_to_percentage 999 (-3) = 0 := by
  obtain ⟨a, b, c⟩ := percentage_always_valid 999 (-3)
  exact ⟨a, b, c (by decide)⟩

/-- Helper: the shape of a status-200 exchange as a function of the embedded
response code. -/
theorem make_request_response_200 (reason : String) (b : ApiResponse) :
    make_request (.response 200 reason b) =
      (if response_code_of b ≠ 0 then
        if response_code_of b = 3 then
          .error (.invalidParameter
            ("API error code " ++ toString (response_code_of b) ++ ": Invalid zone or parameter"))
        else if response_code_of b = 4 then
          .error (.invalidParameter
            ("API error code " ++ toString (response_code_of b) ++ ": Invalid parameter value"))
        else .error (.apiError ("API error code " ++ toString (response_code_of b)))
      else .ok b) := by
  simp [make_request, response_code_of]

/-- C3: a status-200 exchange returns the decoded body exactly when the
embedded response code is 0; codes 3 and 4 raise InvalidParameterError; any
other nonzero code raises the bare YamahaMusicCastError; a network error and
a timeout raise DeviceNotReachableError. -/
theorem make_request_error_taxonomy (b : ApiResponse) (e : String) :
    (make_request (.response 200 "OK" b) = .ok b ↔ response_code_of b = 0) ∧
    (response_code_of b = 3 ∨ response_code_of b = 4 →
      ∃ msg, make_request (.response 200 "OK" b) = .error (.invalidParameter msg)) ∧
    (response_code_of b ≠ 0 ∧ response_code_of b ≠ 3 ∧ response_code_of b ≠ 4 →
      ∃ msg, make_request (.response 200 "OK" b) = .error (.apiError msg)) ∧
    (∃ msg, make_request (.clientError e) = .error (.deviceNotReachable msg)) ∧
    (∃ msg, make_request .timeoutError = .error (.deviceNotReachable msg)) := by
  rw [make_request_response_200]
  refine ⟨?_, ?_, ?_, ⟨_, rfl⟩, ⟨_, rfl⟩⟩
  · constructor
    · intro h
      by_contra h0
      rw [if_pos h0] at h
      split_ifs at h
    · intro h0
      rw [if_neg (by omega)]
  · rintro (h3 | h4)
    · rw [if_pos (by omega), if_pos h3]
      exact ⟨_, rfl⟩
    · rw [if_pos (by omega), if_neg (by omega), if_pos h4]
      exact ⟨_, rfl⟩
  · rintro ⟨hn0, hn3, hn4⟩
    rw [if_pos hn0, if_neg hn3, if_neg hn4]
    exact ⟨_, rfl⟩

/-- C3 (witness): concrete exchanges with embedded codes 0, 4 and 5, and a
network error. -/
theorem make_request_error_taxonomy_witness :
    make_request (.response 200 "OK" okResponse) = .ok okResponse ∧
    (∃ msg, make_request (.response 200 "OK" rc4Response) = .error (.invalidParameter msg)) ∧
    (∃ msg, make_request (.response 200 "OK" rc5Response) = .error (.apiError msg)) ∧
    (∃ msg, make_request (.clientError "reset") = .error (.deviceNotReachable msg)) := by
  refine ⟨?_, ?_, ?_, ?_⟩
  · exact (make_request_error_taxonomy okResponse "reset").1.mpr (by decide)
  · exact (make_request_error_taxonomy rc4Response "reset").2.1 (Or.inr (by decide))
  · exact (make_request_error_taxonomy rc5Response "reset").2.2.1 (by decide)
  · exact (make_request_error_taxonomy okResponse "reset").2.2.2.1

/-- C4 (counterexample): with the available-sources list containing an entry
named TV whose vendor id is the empty string, the name TV is present in the
list, yet selecting it returns BAD_REQUEST and issues zero network calls,
because the handler tests the resolved id for Python truthiness. -/
theorem select_source_counterexample :
    (emptyIdSource ∈ [emptyIdSource] ∧ emptyIdSource.name = "TV") ∧
    select_source okTransport "main" [emptyIdSource] "TV" = (.badRequest, []) := by
  decide

/-- C4 (amended): a source name absent from the available-sources list yields
BAD_REQUEST with zero network calls; a present name resolves to the id of the
first matching entry and, when that id is non-empty, set_input is invoked
with exactly that id; a present name whose resolved id is the empty string
also yields BAD_REQUEST with zero network calls. -/
theorem select_source_resolution (tr : Transport) (zone : String)
    (sources : List SourceEntry) (nm : String) :
    ((∀ s ∈ sources, s.name ≠ nm) →
      select_source tr zone sources nm = (.badRequest, [])) ∧
    (∀ s, sources.find? (fun x => x.name = nm) = some s → s.id ≠ "" →
      (select_source tr zone sources nm).2 = [inputRequest zone s.id]) ∧
    (∀ s, sources.find? (fun x => x.name = nm) = some s → s.id = "" →
      select_source tr zone sources nm = (.badRequest, [])) := by
  refine ⟨?_, ?_, ?_⟩
  · intro habs
    have hf : sources.find? (fun x => x.name = nm) = none := by
      rw [List.find?_eq_none]
      intro x hx
      simpa using habs x hx
    simp [select_source, hf]
  · intro s hs hid
    cases hmr : make_request (tr (inputRequest zone s.id)) with
    | error e => simp [select_source, hs, hid, set_input, hmr]
    | ok v => simp [select_source, hs, hid, set_input, hmr]
  · intro s hs hid
    simp [select_source, hs, hid]

/-- C4 (witness): a name absent from a one-entry list is rejected with no
call; the present name Spotify resolves to its id and set_input is invoked;
the present name TV with an empty id is rejected with no call. -/
theorem select_source_resolution_witness :
    select_source okTransport "main" [spotifySource] "Bluetooth" = (.badRequest, []) ∧
    (select_source okTransport "main" [spotifySource] "Spotify").2 =
      [inputRequest "main" "spotify"] ∧
    select_source okTransport "main" [emptyIdSource] "TV" = (.badRequest, []) := by
  refine ⟨?_, ?_, ?_⟩
  · exact (select_source_resolution okTransport "main" [spotifySource] "Bluetooth").1
      (by decide)
  · exact (select_source_resolution okTransport "main" [spotifySource] "Spotify").2.1
      spotifySource (by decide) (by decide)
  · exact (select_source_resolution okTransport "main" [emptyIdSource] "TV").2.2
      emptyIdSource (by decide) (by decide)

/-- C5: recall_preset raises InvalidParameterError with zero network calls
for every num outside [1, 40], and sends exactly one request and succeeds for
num inside the range under a transport answering with response code 0; the
remote scene command returns BAD_REQUEST with zero network calls for every
scene number outside [1, 8] and succeeds inside the range under such a
transport. -/
theorem preset_and_scene_range_checks (tr : Transport) (zone : String) (num sn : ℤ) :
    (¬ (1 ≤ num ∧ num ≤ 40) →
      recall_preset tr zone num =
        (.error (.invalidParameter
          ("Preset number must be between 1 and 40, got " ++ toString num)), [])) ∧
    (1 ≤ num → num ≤ 40 → ∀ b, make_request (tr (presetRequest zone num)) = .ok b →
      recall_preset tr zone num = (.ok true, [presetRequest zone num])) ∧
    (¬ (1 ≤ sn ∧ sn ≤ 8) → remote_scene_command tr zone sn = (.badRequest, [])) ∧
    (1 ≤ sn → sn ≤ 8 → ∀ b, make_request (tr (sceneRequest zone sn)) = .ok b →
      remote_scene_command tr zone sn = (.ok, [sceneRequest zone sn])) := by
  refine ⟨?_, ?_, ?_, ?_⟩
  · intro h
    simp [recall_preset, h]
  · intro h1 h2 b hb
    simp [recall_preset, h1, h2, hb]
  · intro h
    simp [remote_scene_command, h]
  · intro h1 h2 b hb
    simp [remote_scene_command, h1, h2, set_scene, hb]

/-- C5 (witness): preset 41 and scene 0 fail locally with zero requests;
preset 1 and scene 8 succeed under the response-code-0 stub transport. -/
theorem preset_and_scene_range_checks_witness :
    recall_preset okTransport "main" 41 =
      (.error (.invalidParameter "Preset number must be between 1 and 40, got 41"), []) ∧
    recall_preset okTransport "main" 1 = (.ok true, [presetRequest "main" 1]) ∧
    remote_scene_command okTransport "main" 0 = (.badRequest, []) ∧
    remote_scene_command okTransport "main" 8 = (.ok, [sceneRequest "main" 8]) := by
  obtain ⟨h1, -, h3, -⟩ := preset_and_scene_range_checks okTransport "main" 41 0
  obtain ⟨-, h2, -, h4⟩ := preset_and_scene_range_checks okTransport "main" 1 8
  refine ⟨(h1 (by omega)).trans (by decide), h2 (by omega) (by omega) okResponse (by decide),
    h3 (by omega), h4 (by omega) (by omega) okResponse (by decide)⟩

/-- Helper: the titlecase transform preserves length. -/
theorem py_title_aux_length (b : Bool) (l : List Char) :
    (py_title_aux b l).length = l.length := by
  induction l generalizing b with
  | nil => rfl
  | cons c cs ih => by_cases h : c.isAlpha <;> simp [py_title_aux, h, ih]

/-- C6 (counterexample): the empty input id resolves to the empty display
name: it is absent from the static table, and the underscores-to-spaces
titlecase transform of the empty string is the empty string. -/
theorem friendly_name_empty_counterexample : friendly_input_name "" = "" := by
  decide

/-- C6 (amended): every non-empty input id resolves to a non-empty display
name, either from the static table or via the titlecase fallback transform. -/
theorem friendly_name_nonempty (input_id : String) (h : input_id ≠ "") :
    friendly_input_name input_id ≠ "" := by
  unfold friendly_input_name
  cases hf : input_name_mapping.find? (fun p => p.1 = input_id) with
  | some p =>
      have hmem : p ∈ input_name_mapping := List.mem_of_find?_eq_some hf
      have hvals : ∀ q ∈ input_name_mapping, q.2 ≠ "" := by decide
      simpa using hvals p hmem
  | none =>
      simp only [Option.map_none', Option.getD_none]
      obtain ⟨d⟩ := input_id
      have hd : d ≠ [] := fun hnil => h (by rw [hnil])
      intro heq
      have hdata : py_title_aux false (d.map (fun c => if c = '_' then ' ' else c)) = [] :=
        congrArg String.data heq
      have hlen := congrArg List.length hdata
      rw [py_title_aux_length] at hlen
      simp at hlen
      exact hd hlen

/-- C6 (witness): the unmapped id my_custom_input resolves to the non-empty
name My Custom Input. -/
theorem friendly_name_nonempty_witness :
    friendly_input_name "my_custom_input" ≠ "" ∧
    friendly_input_name "my_custom_input" = "My Custom Input" :=
  ⟨friendly_name_nonempty "my_custom_input" (by decide), by decide⟩

/-- C7: a failed capability fetch makes get_available_inputs return the fixed
hardcoded default input list (Spotify, Bluetooth, HDMI 1, Audio 1) instead of
propagating the error or returning an empty list. -/
theorem capability_fetch_fallback (e : MCError) (zone : String) :
    get_available_inputs (.error e) zone = .ok fallback_inputs ∧
    fallback_inputs ≠ [] ∧
    fallback_inputs.map SourceEntry.name = ["Spotify", "Bluetooth", "HDMI 1", "Audio 1"] :=
  ⟨rfl, by decide, by decide⟩

/-- C8: every request set_playback issues targets netusb/setPlayback and
carries the mapped form of its argument, which is one of the six vendor
literals; play_pause maps to toggle; the six literals are exactly toggle,
play, pause, stop, next and previous; an argument whose mapped form is not
among them is rejected with InvalidParameterError and zero network calls. -/
theorem set_playback_mapping (tr : Transport) (p : String) :
    (∀ r ∈ (set_playback tr p).2,
      r = playbackRequest (mapped_playback p) ∧
        mapped_playback p ∈ vendor_playback_literals) ∧
    (mapped_playback p ∉ vendor_playback_literals →
      set_playback tr p =
        (.error (.invalidParameter ("Invalid playback command: " ++ p)), [])) ∧
    mapped_playback "play_pause" = "toggle" ∧
    vendor_playback_literals = ["toggle", "play", "pause", "stop", "next", "previous"] := by
  refine ⟨?_, ?_, by decide, by decide⟩
  · intro r hr
    by_cases hmem : mapped_playback p ∈ vendor_playback_literals
    · have h2 : (set_playback tr p).2 = [playbackRequest (mapped_playback p)] := by
        cases hmr : make_request (tr (playbackRequest (mapped_playback p))) with
        | error err => simp [set_playback, hmem, hmr]
        | ok v => simp [set_playback, hmem, hmr]
      rw [h2] at hr
      simp at hr
      exact ⟨hr, hmem⟩
    · simp [set_playback, hmem] at hr
  · intro hmem
    simp [set_playback, hmem]

/-- C8 (witness): play_pause is transmitted as the toggle literal, and an
argument whose mapped form is outside the six literals is rejected with zero
network calls. -/
theorem set_playback_mapping_witness :
    (playbackRequest (mapped_playback "play_pause") =
        playbackRequest (mapped_playback "play_pause") ∧
      mapped_playback "play_pause" ∈ vendor_playback_literals) ∧
    set_playback okTransport "rewind" =
      (.error (.invalidParameter "Invalid playback command: rewind"), []) := by
  refine ⟨?_, ?_⟩
  · exact (set_playback_mapping okTransport "play_pause").1
      (playbackRequest (mapped_playback "play_pause")) (by decide)
  · exact ((set_playback_mapping okTransport "rewind").2.1 (by decide)).trans (by decide)

/-- C9: set_volume with no absolute volume, no step, and a direction other
than up or down raises InvalidParameterError with zero network calls; and
every call whose result is a success carried at least one of an absolute
volume, a step, or an up/down direction. -/
theorem set_volume_requires_parameter (fr : Except MCError Features) (tr : Transport)
    (zone : String) (volume step : Option ℤ) (direction : Option String) :
    (volume = none → step = none →
      ¬ (direction = some "up" ∨ direction = some "down") →
      set_volume fr tr zone volume step direction =
        (.error (.invalidParameter "Either volume, step, or direction must be provided"), [])) ∧
    (∀ b, (set_volume fr tr zone volume step direction).1 = .ok b →
      volume ≠ none ∨ step ≠ none ∨ direction = some "up" ∨ direction = some "down") := by
  constructor
  · intro hv hs hd
    subst hv
    subst hs
    simp [set_volume, hd]
  · intro b hb
    cases volume with
    | some v => exact Or.inl (by simp)
    | none =>
        by_cases hd : direction = some "up" ∨ direction = some "down"
        · rcases hd with hd | hd
          · exact Or.inr (Or.inr (Or.inl hd))
          · exact Or.inr (Or.inr (Or.inr hd))
        · cases step with
          | some st => exact Or.inr (Or.inl (by simp))
          | none =>
              exfalso
              simp [set_volume, hd] at hb

/-- C9 (witness): the call with volume and step absent and direction left
fails locally with zero requests; a call with absolute volume 10 succeeds and
carries a parameter. -/
theorem set_volume_requires_parameter_witness :
    set_volume (.ok defaultFeatures) okTransport "main" none none (some "left") =
      (.error (.invalidParameter "Either volume, step, or direction must be provided"), []) ∧
    (some (10:ℤ) ≠ none ∨ (none : Option ℤ) ≠ none ∨
      (none : Option String) = some "up" ∨ (none : Option String) = some "down") := by
  constructor
  · exact (set_volume_requires_parameter (.ok defaultFeatures) okTransport "main"
      none none (some "left")).1 rfl rfl (by decide)
  · exact (set_volume_requires_parameter (.ok defaultFeatures) okTransport "main"
      (some 10) none none).2 true (by decide)
